import Mathlib

/-!
Verification of the reverse-proxy routing policy declared in
`lib/nginx-proxy-stack.ts`.

The stack provisions an ALB whose HTTPS listener has a fixed 403 "Forbidden"
default action and a single forward rule conditioned on the Host header
`www.bim.com.sg` (lines 80-94), and an EC2 instance whose boot script writes
an nginx site configuration through a `bash -c 'cat > ... <<EOF ... EOF'`
heredoc (lines 102-152) with three prefix `location` blocks:
`/` (catch-all, upstream `www.bim.com.sg`), `/_next/` and `/jobs`
(upstream `jobs.bimeco.io`, the latter with a rewrite to `/career`, a
`proxy_redirect` back, and 60s connect/read timeouts).

We embed (a) the boot-time shell heredoc expansion that produces the nginx
file from the TypeScript template literal, (b) nginx prefix-location
selection, rewrite/`proxy_redirect` handling and header interpolation for
the directives present, and (c) the ALB listener's rule dispatch.
Request paths and nginx strings are modelled as `List Char`.
-/

/-- Character lists of a string literal; paths and nginx values are
modelled as `List Char`. -/
def str (s : String) : List Char := s.toList

/-- `startsWith pre l` holds when `pre` is a prefix of `l`; this is the
matching relation of an nginx prefix `location`. -/
def startsWith : List Char → List Char → Bool
  | [], _ => true
  | _ :: _, [] => false
  | a :: pre, b :: l => a == b && startsWith pre l

/-- Characters the shell treats as part of a `$name` variable reference. -/
def isVarChar (c : Char) : Bool := c.isAlpha || c.isDigit || c == '_'

/-- Fuelled expansion of an unquoted-heredoc line by the boot shell
(`bash -c 'cat > ... <<EOF'`, line 102): `\$` becomes a literal `$`, and an
unescaped `$name` is substituted by the variable's value — empty, since no
such shell variable is set in the boot script. -/
def shellExpandF : Nat → List Char → List Char
  | _, [] => []
  | 0, l => l
  | f + 1, '\\' :: '$' :: rest => '$' :: shellExpandF f rest
  | f + 1, '$' :: rest => shellExpandF f (rest.dropWhile isVarChar)
  | f + 1, c :: rest => c :: shellExpandF f rest

/-- Boot-time shell expansion of a heredoc fragment. -/
def shellExpand (l : List Char) : List Char := shellExpandF l.length l

/-- Flag of an nginx `rewrite` directive: `break` stops rewrite processing
and forwards within the current location; `last` re-enters location
matching with the rewritten URI. The `/jobs` block uses `break`
(line 130). -/
inductive RewriteFlag where
  | brk : RewriteFlag
  | last : RewriteFlag
deriving DecidableEq

/-- An nginx `rewrite` directive: the substitution it applies and its
flag. -/
structure RewriteDirective where
  apply : List Char → List Char
  flag : RewriteFlag

/-- One nginx `location` block of the generated configuration: its prefix
pattern, the `proxy_pass` host and optional URI part, the raw
`proxy_set_header` values exactly as they stand in the TypeScript template
literal (before boot-time shell expansion), an optional `rewrite`
directive, an optional `proxy_redirect`, and the optional
`proxy_connect_timeout` / `proxy_read_timeout` values in seconds. -/
structure Route where
  pat : List Char
  upstreamHost : String
  passUri : Option (List Char)
  rawHostHdr : List Char
  rawRealIp : List Char
  rawXff : List Char
  rawProto : List Char
  rewriteDir : Option RewriteDirective
  redirectRule : Option (List Char → List Char)
  connectTimeout : Option Nat
  readTimeout : Option Nat

/-- The rewrite of the `/jobs` block, line 130:
`rewrite ^/jobs(/.*)?$ /career$1 break;` — `/jobs` maps to `/career`,
`/jobs/X` maps to `/career/X`, anything else is left unchanged (the regex
is anchored at both ends). -/
def rewriteJobs (p : List Char) : List Char :=
  if p = str "/jobs" then str "/career"
  else if startsWith (str "/jobs/") p then str "/career" ++ p.drop 5
  else p

/-- The `proxy_redirect` of the `/jobs` block, line 138:
`proxy_redirect https://jobs.bimeco.io/career/ /jobs/;` — a redirect
`Location` starting with `https://jobs.bimeco.io/career/` has that prefix
replaced by `/jobs/`. -/
def redirectJobs (loc : List Char) : List Char :=
  if startsWith (str "https://jobs.bimeco.io/career/") loc
  then str "/jobs/" ++ loc.drop 30
  else loc

/-- `location /` (lines 108-115): catch-all proxied to
`https://www.bim.com.sg`. Its `proxy_set_header` values at lines 111-113
use unescaped `$remote_addr`, `$proxy_add_x_forwarded_for` and `$scheme`,
unlike the other two blocks. -/
def rootLoc : Route where
  pat := str "/"
  upstreamHost := "www.bim.com.sg"
  passUri := none
  rawHostHdr := str "www.bim.com.sg"
  rawRealIp := str "$remote_addr"
  rawXff := str "$proxy_add_x_forwarded_for"
  rawProto := str "$scheme"
  rewriteDir := none
  redirectRule := none
  connectTimeout := none
  readTimeout := none

/-- `location /_next/` (lines 118-125): proxied to
`https://jobs.bimeco.io/_next/`; its header values escape the dollar as
`\$` in the template. -/
def nextLoc : Route where
  pat := str "/_next/"
  upstreamHost := "jobs.bimeco.io"
  passUri := some (str "/_next/")
  rawHostHdr := str "jobs.bimeco.io"
  rawRealIp := str "\\$remote_addr"
  rawXff := str "\\$proxy_add_x_forwarded_for"
  rawProto := str "\\$scheme"
  rewriteDir := none
  redirectRule := none
  connectTimeout := none
  readTimeout := none

/-- `location /jobs` (lines 128-142): rewrite to `/career` with `break`,
proxied to `https://jobs.bimeco.io`, reverse redirect mapping, and 60s
connect/read timeouts. -/
def jobsLoc : Route where
  pat := str "/jobs"
  upstreamHost := "jobs.bimeco.io"
  passUri := none
  rawHostHdr := str "jobs.bimeco.io"
  rawRealIp := str "\\$remote_addr"
  rawXff := str "\\$proxy_add_x_forwarded_for"
  rawProto := str "\\$scheme"
  rewriteDir := some ⟨rewriteJobs, RewriteFlag.brk⟩
  redirectRule := some redirectJobs
  connectTimeout := some 60
  readTimeout := some 60

/-- The generated configuration's location blocks in file order
(lines 108, 118, 128). -/
def routeTable : List Route := [rootLoc, nextLoc, jobsLoc]

/-- nginx prefix-location selection: among the locations whose prefix
matches the request path, the one with the longest prefix is chosen
(file order is irrelevant for prefix locations). -/
def selectRoute (table : List Route) (p : List Char) : Option Route :=
  table.foldl
    (fun best r =>
      if startsWith r.pat p then
        match best with
        | none => some r
        | some b => if b.pat.length < r.pat.length then some r else some b
      else best)
    none

/-- First-match selection over a table in its list order. Used to state
the spec's claimed "first matching pathPattern in table order wins" rule,
to be compared with the source's `selectRoute`. -/
def firstMatchRoute (table : List Route) (p : List Char) : Option Route :=
  table.find? (fun r => startsWith r.pat p)

/-- The route table reordered most-specific-first; against this order,
first-match coincides with nginx's longest-prefix selection. -/
def specPrecedenceTable : List Route := [nextLoc, jobsLoc, rootLoc]

/-- An inbound request as the proxy sees it: Host header, path, client
address (`$remote_addr`), any inbound `X-Forwarded-For` chain, and the
scheme (`$scheme`). -/
structure Req where
  host : String
  path : List Char
  remoteAddr : List Char
  xff : Option (List Char)
  scheme : List Char
deriving DecidableEq

/-- nginx run-time interpolation of a (boot-expanded) `proxy_set_header`
value, for the variables occurring in this configuration:
`$remote_addr` is the client address, `$proxy_add_x_forwarded_for` is the
inbound `X-Forwarded-For` chain with the client address appended (or just
the client address when the chain is absent), `$scheme` is the request
scheme; any other value is literal. -/
def nginxEval (v : List Char) (rq : Req) : List Char :=
  if v = str "$remote_addr" then rq.remoteAddr
  else if v = str "$proxy_add_x_forwarded_for" then
    match rq.xff with
    | some chain => chain ++ str ", " ++ rq.remoteAddr
    | none => rq.remoteAddr
  else if v = str "$scheme" then rq.scheme
  else v

/-- The outbound request a location block produces: upstream host, the
forwarded path, and the four `proxy_set_header` values after boot-time
shell expansion and run-time variable interpolation. -/
structure Forwarded where
  upstreamHost : String
  path : List Char
  hostHdr : List Char
  xRealIp : List Char
  xForwardedFor : List Char
  xForwardedProto : List Char
deriving DecidableEq

/-- Build the outbound request of route `r` for (possibly rewritten) path
`p`: when `proxy_pass` carries a URI part, the matched location prefix is
replaced by that URI; headers are the block's `proxy_set_header` values,
shell-expanded at boot and interpolated at run time. -/
def forwardFor (r : Route) (p : List Char) (rq : Req) : Forwarded where
  upstreamHost := r.upstreamHost
  path :=
    match r.passUri with
    | some uri => uri ++ p.drop r.pat.length
    | none => p
  hostHdr := nginxEval (shellExpand r.rawHostHdr) rq
  xRealIp := nginxEval (shellExpand r.rawRealIp) rq
  xForwardedFor := nginxEval (shellExpand r.rawXff) rq
  xForwardedProto := nginxEval (shellExpand r.rawProto) rq

/-- One step of nginx request processing, with fuel bounding internal
redirects (nginx aborts after 10 cycles): select the location by longest
prefix; a `rewrite` with `break` forwards the rewritten path from the same
location without re-matching, while `last` would re-enter location
matching with the rewritten path. -/
def dispatchAux : Nat → List Char → Req → Option Forwarded
  | 0, _, _ => none
  | fuel + 1, p, rq =>
    match selectRoute routeTable p with
    | none => none
    | some r =>
      match r.rewriteDir with
      | none => some (forwardFor r p rq)
      | some rd =>
        match rd.flag with
        | RewriteFlag.brk => some (forwardFor r (rd.apply p) rq)
        | RewriteFlag.last => dispatchAux fuel (rd.apply p) rq

/-- nginx dispatch of an inbound request: one match-rewrite-forward pass
(with the internal-redirect budget nginx enforces). -/
def dispatchNginx (rq : Req) : Option Forwarded :=
  dispatchAux 10 rq.path rq

/-- An ALB listener action as used at lines 84-94: a fixed response or a
forward to the target group backed by the nginx instance. -/
inductive AlbAction where
  | forwardTg : AlbAction
  | fixedResponse (status : Nat) (contentType : String) (body : String) : AlbAction
deriving DecidableEq

/-- A listener rule: host-header conditions, action, priority. -/
structure AlbRule where
  hostConds : List String
  action : AlbAction
  priority : Nat

/-- The HTTPS listener's rules: the single `AllowBimecoDomain` rule
(lines 90-94) forwarding to the target group when the Host header is
`www.bim.com.sg`, at priority 3. -/
def albRules : List AlbRule :=
  [{ hostConds := ["www.bim.com.sg"], action := AlbAction.forwardTg, priority := 3 }]

/-- The listener's default action (lines 84-87): fixed 403, content type
`text/plain`, body `Forbidden`. -/
def albDefaultAction : AlbAction :=
  AlbAction.fixedResponse 403 "text/plain" "Forbidden"

/-- ALB rule evaluation: the first rule whose host condition matches the
request's Host header fires; otherwise the default action does. -/
def albSelect (host : String) : AlbAction :=
  match albRules.find? (fun r => r.hostConds.contains host) with
  | some r => r.action
  | none => albDefaultAction

/-- A response of the whole stack: either the listener's fixed response or
a request forwarded by nginx to an upstream. -/
inductive SysResponse where
  | fixed (status : Nat) (contentType : String) (body : String) : SysResponse
  | forwarded (f : Forwarded) : SysResponse
deriving DecidableEq

/-- End-to-end dispatch: the listener inspects the Host header; a fixed
action answers immediately, a forward hands the request to nginx.
`none` models a dropped connection (it never occurs, see the theorems). -/
def systemDispatch (rq : Req) : Option SysResponse :=
  match albSelect rq.host with
  | AlbAction.fixedResponse s ct b => some (SysResponse.fixed s ct b)
  | AlbAction.forwardTg => (dispatchNginx rq).map SysResponse.forwarded

/-- `error_page` mapping of the generated configuration (lines 145-146):
404 is served by `/404.html`; 500, 502, 503 and 504 by `/50x.html`. -/
def errorPageFor (status : Nat) : Option String :=
  if status = 404 then some "/404.html"
  else if status = 500 ∨ status = 502 ∨ status = 503 ∨ status = 504 then
    some "/50x.html"
  else none

/-- Outcome of proxying to an upstream under the block's
`proxy_connect_timeout` / `proxy_read_timeout` directives (nginx defaults
both to 60s when unset): if the connection or the read exceeds the
respective timeout, nginx answers 504 Gateway Timeout; otherwise the
upstream's status is returned. -/
def proxyTimeoutOutcome (r : Route) (connectDelay readDelay upstreamStatus : Nat) : Nat :=
  if r.connectTimeout.getD 60 < connectDelay then 504
  else if r.readTimeout.getD 60 < readDelay then 504
  else upstreamStatus

/-- Selection lemma: a path matched by neither `/_next/` nor `/jobs` but
starting with `/` selects the catch-all block. -/
theorem selectRoute_root (p : List Char) (h1 : startsWith (str "/") p = true)
    (h2 : startsWith (str "/_next/") p = false)
    (h3 : startsWith (str "/jobs") p = false) :
    selectRoute routeTable p = some rootLoc := by
  simp [selectRoute, routeTable, rootLoc, nextLoc, jobsLoc, h1, h2, h3]

/-- Selection lemma: a path matched by `/_next/` selects that block — it
has the longest matching prefix whatever the other patterns do. -/
theorem selectRoute_next (p : List Char)
    (h2 : startsWith (str "/_next/") p = true) :
    selectRoute routeTable p = some nextLoc := by
  cases h1 : startsWith (str "/") p <;>
    cases h3 : startsWith (str "/jobs") p <;>
      simp [selectRoute, routeTable, rootLoc, nextLoc, jobsLoc, h1, h2, h3] <;>
    simp [str]

/-- Selection lemma: a path matched by `/jobs` and not by `/_next/`
selects the `/jobs` block. -/
theorem selectRoute_jobs (p : List Char)
    (h2 : startsWith (str "/_next/") p = false)
    (h3 : startsWith (str "/jobs") p = true) :
    selectRoute routeTable p = some jobsLoc := by
  cases h1 : startsWith (str "/") p <;>
    simp [selectRoute, routeTable, rootLoc, nextLoc, jobsLoc, h1, h2, h3]
  simp [str]

/-- Selection lemma: a path matching no location prefix selects nothing. -/
theorem selectRoute_none (p : List Char) (h1 : startsWith (str "/") p = false)
    (h2 : startsWith (str "/_next/") p = false)
    (h3 : startsWith (str "/jobs") p = false) :
    selectRoute routeTable p = none := by
  simp [selectRoute, routeTable, rootLoc, nextLoc, jobsLoc, h1, h2, h3]

/-- Every request whose path starts with `/` is dispatched by nginx to
some upstream: the catch-all makes selection total on HTTP paths. -/
theorem dispatchNginx_isSome (rq : Req)
    (h1 : startsWith (str "/") rq.path = true) :
    (dispatchNginx rq).isSome = true := by
  cases h2 : startsWith (str "/_next/") rq.path
  · cases h3 : startsWith (str "/jobs") rq.path
    · simp [dispatchNginx, dispatchAux, selectRoute_root rq.path h1 h2 h3, rootLoc]
    · simp [dispatchNginx, dispatchAux, selectRoute_jobs rq.path h2 h3, jobsLoc]
  · simp [dispatchNginx, dispatchAux, selectRoute_next rq.path h2, nextLoc]

/-- A Host header different from `www.bim.com.sg` matches no listener
rule, so the default action fires. -/
theorem alb_mismatch (h : String) (hh : h ≠ "www.bim.com.sg") :
    albSelect h = albDefaultAction := by
  simp [albSelect, albRules, List.find?, List.contains, hh]

/-- Claim C1 (counterexample): at path `/jobs/a` the claimed rule — first
match in the file order `/`, `/_next/`, `/jobs` — picks the catch-all,
while the configuration's prefix-location selection picks `/jobs`; the
two selections disagree, so selection is not first-match in that table
order. -/
theorem route_selection_file_order_refuted :
    (firstMatchRoute routeTable (str "/jobs/a")).map Route.pat = some (str "/") ∧
    (selectRoute routeTable (str "/jobs/a")).map Route.pat = some (str "/jobs") ∧
    (firstMatchRoute routeTable (str "/jobs/a")).map Route.pat ≠
      (selectRoute routeTable (str "/jobs/a")).map Route.pat :=
  ⟨rfl, rfl, by decide⟩

/-- Claim C1 (amended): for every request path, the route selected is the
matching location with the longest prefix — equivalently, the first match
top-down over the table ordered most-specific-first (`/_next/`, `/jobs`,
then the catch-all `/`), not over the file order. -/
theorem route_selection_longest_prefix (p : List Char) :
    selectRoute routeTable p = firstMatchRoute specPrecedenceTable p := by
  cases h1 : startsWith (str "/") p <;>
    cases h2 : startsWith (str "/_next/") p <;>
      cases h3 : startsWith (str "/jobs") p <;>
        simp [selectRoute, firstMatchRoute, routeTable, specPrecedenceTable,
          List.find?, rootLoc, nextLoc, jobsLoc, h1, h2, h3] <;>
      simp [str]

/-- Claim C2: a request matching no forward rule — here, any request whose
Host header differs from `www.bim.com.sg`, the only case in which no route
(and no catch-all) is available, since the nginx table's catch-all makes
path matching total — receives the listener's fixed 403 response with body
`Forbidden`; and every request receives some response, none is silently
dropped. -/
theorem unmatched_request_fixed_403 (rq : Req)
    (hpath : startsWith (str "/") rq.path = true) :
    (systemDispatch rq).isSome = true ∧
      (rq.host ≠ "www.bim.com.sg" →
        systemDispatch rq = some (SysResponse.fixed 403 "text/plain" "Forbidden")) := by
  by_cases hh : rq.host = "www.bim.com.sg"
  · refine ⟨?_, fun hne => absurd hh hne⟩
    have hs := dispatchNginx_isSome rq hpath
    simp [systemDispatch, hh, albSelect, albRules, List.find?, List.contains]
    cases hd : dispatchNginx rq with
    | none => rw [hd] at hs; simp at hs
    | some f => simp [hd]
  · have ha := alb_mismatch rq.host hh
    exact ⟨by simp [systemDispatch, ha, albDefaultAction],
      fun _ => by simp [systemDispatch, ha, albDefaultAction]⟩

/-- Witness for C2 at a concrete request with an unmatched Host header. -/
theorem unmatched_request_fixed_403_witness :
    systemDispatch ⟨"evil.example", str "/nope", str "203.0.113.7", none, str "https"⟩ =
      some (SysResponse.fixed 403 "text/plain" "Forbidden") :=
  (unmatched_request_fixed_403
    ⟨"evil.example", str "/nope", str "203.0.113.7", none, str "https"⟩ (by decide)).2
    (by decide)

/-- Claim C3: a request path `/jobs/foo` is rewritten to `/career/foo` and
forwarded to `jobs.bimeco.io`; an upstream redirect whose `Location`
targets `https://jobs.bimeco.io/career/foo` is rewritten back to
`/jobs/foo` for the client, and on `/jobs/`-paths the `proxy_redirect`
mapping is the inverse of the request rewrite. -/
theorem jobs_rewrite_round_trip (s : List Char) (h : String)
    (ra sc : List Char) (xf : Option (List Char)) :
    (dispatchNginx ⟨h, str "/jobs/" ++ s, ra, xf, sc⟩).map
        (fun f => (f.upstreamHost, f.path)) =
      some ("jobs.bimeco.io", str "/career/" ++ s) ∧
    redirectJobs (str "https://jobs.bimeco.io/career/" ++ s) = str "/jobs/" ++ s ∧
    redirectJobs (str "https://jobs.bimeco.io" ++ rewriteJobs (str "/jobs/" ++ s)) =
      str "/jobs/" ++ s :=
  ⟨rfl, rfl, rfl⟩

/-- Claim C4 (bug evidence): in the boot heredoc the catch-all block's
`proxy_set_header` values are written with unescaped `$remote_addr`,
`$proxy_add_x_forwarded_for` and `$scheme` (lines 111-113), unlike the
escaped `\$`-values of the other two blocks; the boot shell therefore
expands them to the empty string, so the generated catch-all block carries
no client address, no forwarding chain and no scheme (an nginx
`proxy_set_header` directive with a missing value), while the `/jobs`
block's values survive and interpolate the appended chain as claimed. -/
theorem catch_all_forwarded_headers_bug :
    shellExpand rootLoc.rawRealIp = [] ∧
    shellExpand rootLoc.rawXff = [] ∧
    shellExpand rootLoc.rawProto = [] ∧
    shellExpand jobsLoc.rawXff = str "$proxy_add_x_forwarded_for" ∧
    (forwardFor rootLoc (str "/")
        ⟨"www.bim.com.sg", str "/", str "203.0.113.7", some (str "10.0.0.9"),
          str "https"⟩).xForwardedFor = [] ∧
    (forwardFor jobsLoc (str "/career/x")
        ⟨"www.bim.com.sg", str "/jobs/x", str "203.0.113.7", some (str "10.0.0.9"),
          str "https"⟩).xForwardedFor = str "10.0.0.9, 203.0.113.7" :=
  ⟨rfl, rfl, rfl, rfl, rfl, rfl⟩

/-- Claim C5: every request whose path begins with `/_next/` is forwarded
to the upstream `jobs.bimeco.io` at the same path, with the Host header
set to `jobs.bimeco.io`, whatever the rest of the request is. -/
theorem next_static_same_path_to_jobs_upstream (s : List Char) (h : String)
    (ra sc : List Char) (xf : Option (List Char)) :
    (dispatchNginx ⟨h, str "/_next/" ++ s, ra, xf, sc⟩).map
        (fun f => (f.upstreamHost, f.path, f.hostHdr)) =
      some ("jobs.bimeco.io", str "/_next/" ++ s, str "jobs.bimeco.io") :=
  rfl

/-- Claim C6: a request whose path starts with `/` but matches neither
`/_next/` nor `/jobs` is forwarded unrewritten — same path — to the
catch-all upstream `www.bim.com.sg`. -/
theorem unmatched_specific_to_catch_all (h : String) (p ra sc : List Char)
    (xf : Option (List Char))
    (h1 : startsWith (str "/") p = true)
    (h2 : startsWith (str "/_next/") p = false)
    (h3 : startsWith (str "/jobs") p = false) :
    (dispatchNginx ⟨h, p, ra, xf, sc⟩).map (fun f => (f.upstreamHost, f.path)) =
      some ("www.bim.com.sg", p) := by
  simp [dispatchNginx, dispatchAux, selectRoute_root p h1 h2 h3, rootLoc, forwardFor]

/-- Witness for C6 at the concrete path `/anything-else`. -/
theorem unmatched_specific_to_catch_all_witness :
    (dispatchNginx ⟨"www.bim.com.sg", str "/anything-else", str "203.0.113.7",
        none, str "https"⟩).map (fun f => (f.upstreamHost, f.path)) =
      some ("www.bim.com.sg", str "/anything-else") :=
  unmatched_specific_to_catch_all "www.bim.com.sg" (str "/anything-else")
    (str "203.0.113.7") (str "https") none (by decide) (by decide) (by decide)

/-- Claim C7: the listener decides on the Host header alone, before any
path routing: a request whose Host header is not `www.bim.com.sg` gets
the fixed 403 `Forbidden` response whatever its path, and a request whose
Host header is `www.bim.com.sg` is handed to the nginx route table. -/
theorem host_mismatch_403_before_routing (rq : Req) :
    (rq.host ≠ "www.bim.com.sg" →
      systemDispatch rq = some (SysResponse.fixed 403 "text/plain" "Forbidden")) ∧
    (rq.host = "www.bim.com.sg" →
      systemDispatch rq = (dispatchNginx rq).map SysResponse.forwarded) := by
  constructor
  · intro hh
    simp [systemDispatch, alb_mismatch rq.host hh, albDefaultAction]
  · intro hh
    simp [systemDispatch, hh, albSelect, albRules, List.find?, List.contains]

/-- Witness for C7: a wrong-Host request gets the fixed 403, and a
right-Host request is forwarded to the route table. -/
theorem host_mismatch_403_before_routing_witness :
    systemDispatch ⟨"other.host", str "/jobs/x", str "203.0.113.7", none, str "https"⟩ =
      some (SysResponse.fixed 403 "text/plain" "Forbidden") ∧
    systemDispatch ⟨"www.bim.com.sg", str "/jobs/x", str "203.0.113.7", none, str "https"⟩ =
      (dispatchNginx ⟨"www.bim.com.sg", str "/jobs/x", str "203.0.113.7", none,
        str "https"⟩).map SysResponse.forwarded :=
  ⟨(host_mismatch_403_before_routing
      ⟨"other.host", str "/jobs/x", str "203.0.113.7", none, str "https"⟩).1 (by decide),
    (host_mismatch_403_before_routing
      ⟨"www.bim.com.sg", str "/jobs/x", str "203.0.113.7", none, str "https"⟩).2 rfl⟩

/-- Claim C8: the `/jobs` block configures 60-second connect and read
timeouts; a read that exceeds the configured read timeout yields a 504
gateway-timeout response (whatever the connect delay and the status the
upstream would eventually return), and the configuration serves 504
through the `/50x.html` error page. -/
theorem jobs_timeout_504 :
    jobsLoc.connectTimeout = some 60 ∧ jobsLoc.readTimeout = some 60 ∧
    errorPageFor 504 = some "/50x.html" ∧
    ∀ cd rd stat : Nat, 60 < rd → proxyTimeoutOutcome jobsLoc cd rd stat = 504 := by
  refine ⟨rfl, rfl, rfl, fun cd rd stat hrd => ?_⟩
  by_cases hcd : 60 < cd <;> simp [proxyTimeoutOutcome, jobsLoc, hcd, hrd]

/-- Witness for C8: with no connect delay, a 61-second read silence turns
a would-be 200 into a 504. -/
theorem jobs_timeout_504_witness :
    proxyTimeoutOutcome jobsLoc 0 61 200 = 504 :=
  jobs_timeout_504.2.2.2 0 61 200 (by decide)

/-- Claim C9: the `/jobs` rewrite carries the `break` flag, so dispatch is
a single match-rewrite-forward pass: `/jobs/foo` is forwarded to
`jobs.bimeco.io` with the rewritten path `/career/foo`, although matching
the rewritten path against the route table would select the catch-all
route (upstream `www.bim.com.sg`) — the rewritten path is never
re-matched, and no rewrite loop can arise. -/
theorem single_pass_no_rematch (s : List Char) (h : String)
    (ra sc : List Char) (xf : Option (List Char)) :
    jobsLoc.rewriteDir.map RewriteDirective.flag = some RewriteFlag.brk ∧
    (dispatchNginx ⟨h, str "/jobs/" ++ s, ra, xf, sc⟩).map
        (fun f => (f.upstreamHost, f.path)) =
      some ("jobs.bimeco.io", str "/career/" ++ s) ∧
    (selectRoute routeTable (str "/career/" ++ s)).map Route.upstreamHost =
      some "www.bim.com.sg" :=
  ⟨rfl, rfl, rfl⟩

/-- Claim C10: route selection is deterministic and a pure function of the
path and the fixed table — equal paths select equal routes, and the
forwarded upstream and path of a dispatched request depend on nothing in
the request but its path. -/
theorem route_selection_deterministic :
    (∀ p q : List Char, p = q →
      selectRoute routeTable p = selectRoute routeTable q) ∧
    (∀ rq rq2 : Req, rq.path = rq2.path →
      (dispatchNginx rq).map (fun f => (f.upstreamHost, f.path)) =
        (dispatchNginx rq2).map (fun f => (f.upstreamHost, f.path))) := by
  refine ⟨fun p q hpq => by rw [hpq], fun rq rq2 hp => ?_⟩
  cases h2 : startsWith (str "/_next/") rq.path
  · cases h3 : startsWith (str "/jobs") rq.path
    · cases h1 : startsWith (str "/") rq.path
      · have e := selectRoute_none rq.path h1 h2 h3
        simp [dispatchNginx, dispatchAux, ← hp, e]
      · have e := selectRoute_root rq.path h1 h2 h3
        simp [dispatchNginx, dispatchAux, ← hp, e, rootLoc, forwardFor]
    · have e := selectRoute_jobs rq.path h2 h3
      simp [dispatchNginx, dispatchAux, ← hp, e, jobsLoc, forwardFor]
  · have e := selectRoute_next rq.path h2
    simp [dispatchNginx, dispatchAux, ← hp, e, nextLoc, forwardFor]

/-- Witness for C10 at two concrete requests sharing the path `/jobs/x`
but differing in every other attribute. -/
theorem route_selection_deterministic_witness :
    selectRoute routeTable (str "/jobs/x") = selectRoute routeTable (str "/jobs/x") ∧
    (dispatchNginx ⟨"www.bim.com.sg", str "/jobs/x", str "203.0.113.7", none,
        str "https"⟩).map (fun f => (f.upstreamHost, f.path)) =
      (dispatchNginx ⟨"a.example", str "/jobs/x", str "10.1.1.1",
        some (str "192.0.2.4"), str "http"⟩).map (fun f => (f.upstreamHost, f.path)) :=
  ⟨route_selection_deterministic.1 (str "/jobs/x") (str "/jobs/x") rfl,
    route_selection_deterministic.2
      ⟨"www.bim.com.sg", str "/jobs/x", str "203.0.113.7", none, str "https"⟩
      ⟨"a.example", str "/jobs/x", str "10.1.1.1", some (str "192.0.2.4"), str "http"⟩
      rfl⟩
